import Mathlib

set_option maxRecDepth 4000

/-!
Verification development for the ticket bot in src/bot.py.

The development shallowly embeds the core of the bot: ticket creation
(create_new_ticket), closure (perform_ticket_closure, the CloseTicketView
button, the force_close command), the inactivity timer
(archive_thread_after_delay), the cooldown registry (the cooldowns dict
together with release_cooldown_lock), the proof-submission handler
(on_message), the operator review view (VerificationView), the manual
final-delivery command (verify_v2_final) and the transcript builder
(create_transcript).

Conventions of the embedding:
  - time is an absolute number of seconds (Nat); the operational-hours
    check is a function of the current hour in IST;
  - the per-guild data the handlers consult (threads, the cooldowns dict,
    the activation-category permission overwrites, the temporary role,
    the count of transcript logs) is collected in SysState;
  - discord message sending, embeds and logging text are not modelled;
    each handler returns the decision it takes instead;
  - the Stage field on a thread records the protocol stage that the
    specification document ascribes to a ticket (Open, AwaitingProofReview,
    AwaitingSecondStepProof, Closed).  The source itself stores no such
    field: the only closure-relevant flag it keeps is thread.archived.
    Stage is updated alongside as ghost data so that spec-level statements
    about stages can be compared with what the code actually tests.
-/

namespace Kiro

/-- States of a ticket as named by the specification.  The source code keeps
only the archived flag; Closed corresponds to archived = true. -/
inductive Stage where
  | Open
  | AwaitingProofReview
  | AwaitingSecondStepProof
  | Closed
deriving DecidableEq, Repr

/-- A ticket thread: owning user, the channel the thread was created in
(interaction.channel), the archived flag, and the spec-level stage. -/
structure Thread where
  owner : Nat
  parent : Nat
  archived : Bool
  stage : Stage
deriving DecidableEq, Repr

/-- Global configuration constants from the top of bot.py. -/
def COOLDOWN_HOURS : Nat := 168

/-- Cooldown duration in seconds (168 hours). -/
def cooldownSeconds : Nat := COOLDOWN_HOURS * 3600

/-- V2_APPS_LIST from bot.py: the app keys that need a second proof step. -/
def V2_APPS_LIST : List String := ["bilibili", "hotstar", "vpn"]

/-- TICKET_START_HOUR_IST. -/
def TICKET_START_HOUR_IST : Nat := 14

/-- TICKET_END_HOUR_IST. -/
def TICKET_END_HOUR_IST : Nat := 24

/-- is_ticket_time_allowed, as a function of the current hour in IST. -/
def isTicketTimeAllowed (hourIST : Nat) : Bool :=
  decide (TICKET_START_HOUR_IST ≤ hourIST) && decide (hourIST < TICKET_END_HOUR_IST)

/-- Thread names used by create_new_ticket: ticket-(user id). -/
def threadNameFor (userId : Nat) : String := "ticket-" ++ toString userId

/-- Name of a thread (determined by its owner, as in the source). -/
def threadName (t : Thread) : String := threadNameFor t.owner

/-- Uppercase a string character by character (str.upper()). -/
def strUpper (s : String) : String := String.mk (s.data.map Char.toUpper)

/-- Lowercase a string character by character (str.lower()). -/
def strLower (s : String) : String := String.mk (s.data.map Char.toLower)

/-- Substring containment, the semantics of the python operator in:
sub in hay. -/
def strContains (hay sub : String) : Bool :=
  (hay.data.tails).any (fun t => sub.data.isPrefixOf t)

/-- Lookup in the cooldowns dict (user id to absolute expiry time). -/
def lookupExpiry (cds : List (Nat × Nat)) (u : Nat) : Option Nat :=
  (cds.find? (fun p => p.1 == u)).map (fun p => p.2)

/-- Assignment into the cooldowns dict. -/
def setExpiry (cds : List (Nat × Nat)) (u v : Nat) : List (Nat × Nat) :=
  (u, v) :: cds.filter (fun p => !(p.1 == u))

/-- Deletion from the cooldowns dict. -/
def delExpiry (cds : List (Nat × Nat)) (u : Nat) : List (Nat × Nat) :=
  cds.filter (fun p => !(p.1 == u))

/-- Add a user to a set-like list (permission overwrite or role grant). -/
def addOnce (l : List Nat) (u : Nat) : List Nat :=
  if l.contains u then l else u :: l

/-- Remaining cooldown as computed in create_new_ticket: present exactly
when the stored expiry is strictly later than now. -/
def cooldownRemaining (cds : List (Nat × Nat)) (u now : Nat) : Option Nat :=
  match lookupExpiry cds u with
  | some e => if now < e then some (e - now) else none
  | none => none

/-- The backup cooldown test of create_new_ticket, step 3:
user.id in cooldowns and cooldowns(user.id) strictly later than now. -/
def cooldownBlocked (cds : List (Nat × Nat)) (u now : Nat) : Bool :=
  match lookupExpiry cds u with
  | some e => decide (now < e)
  | none => false

/-- The mutable state the embedded handlers read and write: the thread
list, the cooldowns dict, the users currently denied view permission on
the activation category, the users holding the temporary role, the number
of transcript logs posted so far, and the two global flags. -/
structure SysState where
  threads : List Thread
  cooldowns : List (Nat × Nat)
  categoryDenied : List Nat
  tempRole : List Nat
  transcripts : Nat
  creationEnabled : Bool
  bypassHours : Bool
deriving DecidableEq, Repr

/-- The predicate used by create_new_ticket to look for an existing active
ticket: not archived, in the origin channel, and carrying the name of the
requesting user. -/
def activePred (nm : String) (c : Nat) (t : Thread) : Bool :=
  !t.archived && (t.parent == c && threadName t == nm)

/-- Number of active (non archived) tickets with a given name in a given
channel. -/
def activeCount (st : SysState) (nm : String) (c : Nat) : Nat :=
  (st.threads.filter (activePred nm c)).length

/-- Whether a user has an active ticket thread in a channel. -/
def hasActiveTicket (st : SysState) (owner ch : Nat) : Bool :=
  st.threads.any (activePred (threadNameFor owner) ch)

/-- Result of create_new_ticket, mirroring the four user-facing refusals
and the success path of the source. -/
inductive OpenResult where
  | systemClosed
  | cooldownActive (remaining : Option Nat)
  | duplicateTicket (existing : String)
  | created
deriving DecidableEq, Repr

/-- True exactly on the cooldownActive constructor. -/
def isCooldownActiveR : OpenResult → Bool
  | .cooldownActive _ => true
  | _ => false

/-- create_new_ticket (bot.py lines 453-611).  Checks, in source order:
the global creation flag and operational hours (with bypass), the
activation-category view permission (step 2, which answers with the
cooldown embed and a remaining time taken from the cooldowns dict, or the
text N/A modelled as none), the cooldowns dict itself (step 3), and only
then an existing active thread of the same name among the threads of the
origin channel.  On success a fresh unarchived thread is appended. -/
def createNewTicket (st : SysState) (user originCh now hourIST : Nat) :
    SysState × OpenResult :=
  if !(st.creationEnabled && (isTicketTimeAllowed hourIST || st.bypassHours)) then
    (st, .systemClosed)
  else if st.categoryDenied.contains user then
    (st, .cooldownActive (cooldownRemaining st.cooldowns user now))
  else if cooldownBlocked st.cooldowns user now then
    (st, .cooldownActive (cooldownRemaining st.cooldowns user now))
  else
    match st.threads.find? (activePred (threadNameFor user) originCh) with
    | some t => (st, .duplicateTicket (threadName t))
    | none =>
        ({ st with threads := st.threads ++ [⟨user, originCh, false, Stage.Open⟩] },
         .created)

/-- The archival step of perform_ticket_closure: the targeted channel
object is archived and locked.  Stage becomes Closed alongside. -/
def closureMark (owner parentCh : Nat) (t : Thread) : Thread :=
  if t.parent == parentCh && threadName t == threadNameFor owner then
    { t with archived := true, stage := Stage.Closed }
  else t

/-- perform_ticket_closure (bot.py lines 275-355): posts the transcript to
the log channel, then, when apply_cooldown is set, stores the cooldown
expiry (now plus 168 hours), grants the temporary role and denies the
activation-category view permission, and finally archives the thread.
No step of it consults the archived flag of the target. -/
def performTicketClosure (st : SysState) (owner parentCh now : Nat)
    (applyCooldown : Bool) : SysState :=
  let st1 := { st with transcripts := st.transcripts + 1 }
  let st2 :=
    if applyCooldown then
      { st1 with
        cooldowns := setExpiry st1.cooldowns owner (now + cooldownSeconds),
        tempRole := addOnce st1.tempRole owner,
        categoryDenied := addOnce st1.categoryDenied owner }
    else st1
  { st2 with threads := st2.threads.map (closureMark owner parentCh) }

/-- release_cooldown_lock (bot.py lines 229-256), at the moment the
scheduled task wakes up: if the stored expiry has passed, the cooldown
entry is deleted and the category view permission restored; otherwise
nothing happens. -/
def releaseCooldownLock (st : SysState) (u now : Nat) : SysState :=
  match lookupExpiry st.cooldowns u with
  | some e =>
      if e ≤ now then
        { st with
          cooldowns := delExpiry st.cooldowns u,
          categoryDenied := st.categoryDenied.filter (fun x => !(x == u)) }
      else st
  | none => st

/-- Result of the two manual closure entry points. -/
inductive CloseCmdResult where
  | notTicket
  | closurePerformed
deriving DecidableEq, Repr

/-- Channel-name guard shared by the close button and force_close:
name.startswith with the ticket marker. -/
def startsWithTicket (nm : String) : Bool :=
  ("ticket-").data.isPrefixOf nm.data

/-- CloseTicketView.close_ticket (bot.py lines 744-761): after the name
guard it always runs perform_ticket_closure with apply_cooldown true.
There is no already-closed check. -/
def closeTicketButton (st : SysState) (owner ch now : Nat) :
    SysState × CloseCmdResult :=
  if startsWithTicket (threadNameFor owner) then
    (performTicketClosure st owner ch now true, .closurePerformed)
  else (st, .notTicket)

/-- force_close (bot.py lines 1122-1144): after the name guard it always
runs perform_ticket_closure with apply_cooldown false.  There is no
already-closed check. -/
def forceCloseCmd (st : SysState) (owner ch now : Nat) :
    SysState × CloseCmdResult :=
  if startsWithTicket (threadNameFor owner) then
    (performTicketClosure st owner ch now false, .closurePerformed)
  else (st, .notTicket)

/-- archive_thread_after_delay (bot.py lines 429-447), at the moment the
ten-minute sleep ends: the only guard is thread.archived; an unarchived
thread is closed through perform_ticket_closure with apply_cooldown
false, whatever its protocol stage. -/
def archiveThreadAfterDelay (st : SysState) (owner ch now : Nat) : SysState :=
  if hasActiveTicket st owner ch then
    performTicketClosure st owner ch now false
  else st

/-- Spec-level stage bookkeeping: move the active ticket of a user in a
channel from one stage to the next.  The underlying code only sends
messages at these moments and keeps no stage field, so only the ghost
stage changes. -/
def setStage (st : SysState) (owner ch : Nat) (fromS toS : Stage) : SysState :=
  { st with
    threads := st.threads.map fun t =>
      if t.parent == ch &&
          (threadName t == threadNameFor owner && (!t.archived && t.stage == fromS))
      then { t with stage := toS }
      else t }

/-- Events driving the ticket life cycle, for statements quantifying over
arbitrary operation sequences. -/
inductive Op where
  | openT (user ch now hourIST : Nat)
  | closeT (user ch now : Nat)
  | forceCloseT (user ch now : Nat)
  | timerFireT (user ch now : Nat)
  | submitV1 (user ch : Nat)
  | approveV1 (user ch : Nat) (isV2 : Bool)
deriving DecidableEq, Repr

/-- One event step on the system state. -/
def step (st : SysState) : Op → SysState
  | .openT u c now h => (createNewTicket st u c now h).1
  | .closeT u c now => (closeTicketButton st u c now).1
  | .forceCloseT u c now => (forceCloseCmd st u c now).1
  | .timerFireT u c now => archiveThreadAfterDelay st u c now
  | .submitV1 u c => setStage st u c Stage.Open Stage.AwaitingProofReview
  | .approveV1 u c isV2 =>
      if isV2 then setStage st u c Stage.AwaitingProofReview Stage.AwaitingSecondStepProof
      else st

/-- Run a sequence of events. -/
def run (st : SysState) (ops : List Op) : SysState := ops.foldl step st

/-- Per-channel uniqueness: at most one active ticket of any given name in
any given channel. -/
def invPerChannel (st : SysState) : Prop :=
  ∀ nm c, activeCount st nm c ≤ 1

/-- Number of active tickets of a given name across all channels. -/
def globalActiveCount (st : SysState) (nm : String) : Nat :=
  (st.threads.filter (fun t => !t.archived && threadName t == nm)).length

/-- The empty initial state with creation enabled. -/
def stEmpty : SysState :=
  { threads := [], cooldowns := [], categoryDenied := [], tempRole := [],
    transcripts := 0, creationEnabled := true, bypassHours := false }

/-- An incoming guild message as seen by on_message. -/
structure Msg where
  content : String
  hasAttachment : Bool
  authorIsBot : Bool
  inTicketChannel : Bool
deriving DecidableEq, Repr

/-- Python runtime failure raised by the handler. -/
inductive PyErr where
  | unboundLocal (varName : String)
deriving DecidableEq, Repr

/-- Decisions the proof-submission handler can take, together with the
delivery outcome that only deliver_and_close produces. -/
inductive MsgOutcome where
  | ignored
  | v2ForwardedToAdmin (appKey : String)
  | v1ForwardedForReview (appKey : String)
  | keywordMissing (required : List String)
  | attachmentMissing (appKey : String)
  | linkDelivered (appKey : String)
deriving DecidableEq, Repr

/-- The default app catalog created by load_apps when apps.json is
missing (keys in dict insertion order). -/
def defaultApps : List (String × String) :=
  [("spotify", "https://link-target.net/1438550/4r4pWdwOV2gK"),
   ("youtube", "https://example.com/youtube-download"),
   ("kinemaster", "https://link-center.net/1438550/dP4XtgqcsuU1"),
   ("hotstar", "https://final-link.com/hotstar-premium"),
   ("vpn", "https://final-link.com/vpn-premium"),
   ("truecaller", "https://link-target.net/1438550/kvu1lPW7ZsKu"),
   ("bilibili", "https://final-link.com/bilibili-premium"),
   ("castle", "https://final-link.com/castle-premium")]

/-- First catalog key contained in the lowercased message content, the
matched_app_key computation of on_message. -/
def matchedAppKey (apps : List (String × String)) (m : Msg) : Option String :=
  (apps.find? (fun p => strContains (strLower m.content) p.1)).map (fun p => p.1)

/-- on_message (bot.py lines 1312-1427).  Order of tests as in the
source: bot author or non-ticket channel returns silently; a matched app
key with an attachment goes through the V2 key-phrase check (forward to
the verification channel asking the admin to run verify_v2_final), then
the RASH TECH check (forward for operator button review), else the
keyword-missing reply; a matched app key without an attachment reaches a
reply that reads the local variable app_name_display, which was only
assigned in the attachment branch, so the handler raises UnboundLocalError
before sending anything; no matched key falls through silently.
on_message never calls deliver_and_close, so no path returns
linkDelivered. -/
def onMessage (apps : List (String × String)) (m : Msg) :
    Except PyErr MsgOutcome :=
  if m.authorIsBot || !m.inTicketChannel then .ok .ignored
  else
    let contentUpper := strUpper m.content
    let contentLower := strLower m.content
    match apps.find? (fun p => strContains contentLower p.1) with
    | some pr =>
        let appKey := pr.1
        if m.hasAttachment then
          let v2KeyWord := strUpper appKey ++ " KEY"
          let isV2App := V2_APPS_LIST.contains appKey
          if isV2App && strContains contentUpper v2KeyWord then
            .ok (.v2ForwardedToAdmin appKey)
          else if strContains contentUpper "RASH TECH" then
            .ok (.v1ForwardedForReview appKey)
          else
            .ok (.keywordMissing
              ("RASH TECH" :: (if isV2App then [v2KeyWord] else [])))
        else
          .error (.unboundLocal "app_name_display")
    | none => .ok .ignored

/-- Catalog lookup used by deliver_and_close. -/
def lookupLink (apps : List (String × String)) (k : String) : Option String :=
  (apps.find? (fun p => p.1 == k)).map (fun p => p.2)

/-- Outcome of deliver_and_close. -/
inductive DeliverResult where
  | finalLinkMissing
  | linkSent (appKey : String)
deriving DecidableEq, Repr

/-- deliver_and_close (bot.py lines 361-424): delivery happens exactly
when the catalog has a link for the key. -/
def deliverAndClose (apps : List (String × String)) (appKey : String) :
    DeliverResult :=
  match lookupLink apps appKey with
  | none => .finalLinkMissing
  | some _ => .linkSent appKey

/-- Outcome of the verify_v2_final slash command. -/
inductive V2FinalResult where
  | notV2App
  | noOpenTicket
  | completed (d : DeliverResult)
deriving DecidableEq, Repr

/-- verify_v2_final (bot.py lines 1183-1216): a manage-guild operator
command; it rejects keys outside V2_APPS_LIST, requires an unarchived
ticket of the user, and then runs deliver_and_close.  This command is the
only route from a received V2 proof to link delivery. -/
def verifyV2Final (apps : List (String × String)) (threads : List Thread)
    (appName : String) (userId : Nat) : V2FinalResult :=
  let appKey := strLower appName
  if !(V2_APPS_LIST.contains appKey) then .notV2App
  else
    match threads.find? (fun t => threadName t == threadNameFor userId) with
    | none => .noOpenTicket
    | some t =>
        if t.archived then .noOpenTicket
        else .completed (deliverAndClose apps appKey)

/-- The state of the VerificationView review prompt: one disabled flag
shared by its buttons (the source disables all children together) and the
two-stage flag of the app under review. -/
structure VerifView where
  disabled : Bool
  isV2App : Bool
deriving DecidableEq, Repr

/-- Which button an operator presses. -/
inductive ClickKind where
  | approve
  | deny
deriving DecidableEq, Repr

/-- A button interaction: the button and whether the clicking user has
the manage-guild permission. -/
structure Click where
  kind : ClickKind
  hasManageGuild : Bool
deriving DecidableEq, Repr

/-- The externally visible effect of a decision: the second-step
instruction (approve, two-stage app), the delivery flow (approve,
one-stage app), or the denial notice. -/
inductive DecideEffect where
  | instructedSecondStep
  | deliveryFlowStarted
  | denialNotice
deriving DecidableEq, Repr

/-- One button interaction against VerificationView
(bot.py lines 903-972).  The platform does not dispatch interactions on
disabled components, which is exactly the guard the source installs by
editing the message with every child disabled before acting; a permitted
click first disables all children and then performs its effect; a click
without manage_guild only gets an ephemeral refusal. -/
def processClick (v : VerifView) (c : Click) : VerifView × Option DecideEffect :=
  if v.disabled then (v, none)
  else if !c.hasManageGuild then (v, none)
  else
    match c.kind with
    | .approve =>
        ({ v with disabled := true },
         some (if v.isV2App then .instructedSecondStep else .deliveryFlowStarted))
    | .deny => ({ v with disabled := true }, some .denialNotice)

/-- Sequential processing of a list of clicks (the event loop handles
interactions one at a time). -/
def processClicks (v : VerifView) : List Click → VerifView × List DecideEffect
  | [] => (v, [])
  | c :: cs =>
      let r := processClick v c
      let rest := processClicks r.1 cs
      (rest.1, r.2.toList ++ rest.2)

/-- A message as rendered by create_transcript. -/
structure TMessage where
  timestamp : String
  authorName : String
  authorId : Nat
  content : String
  attachmentUrls : List String
deriving DecidableEq, Repr

/-- The line create_transcript renders for one message: header, author,
id, content, newline, then one line per attachment. -/
def renderLine (m : TMessage) : String :=
  "[" ++ m.timestamp ++ "] " ++ m.authorName ++ " (" ++ toString m.authorId ++
    "): " ++ m.content ++ "\n" ++
    String.join (m.attachmentUrls.map (fun u => "ATTACHMENT: " ++ u ++ "\n"))

/-- The chunk-packing loop of create_transcript (bot.py lines 209-221):
when the current chunk plus the next line would exceed 4000 characters the
current chunk is emitted and the line starts a new one; in both cases the
line and a blank separator newline are appended to the current chunk. -/
def chunkLoop : List TMessage → String → List String → List String
  | [], current, chunks => if current = "" then chunks else chunks ++ [current]
  | m :: ms, current, chunks =>
      let line := renderLine m
      if 4000 < current.length + line.length then
        chunkLoop ms (line ++ "\n") (chunks ++ [current])
      else
        chunkLoop ms (current ++ (line ++ "\n")) chunks

/-- create_transcript (bot.py lines 200-223): history arrives newest
first and is reversed before packing. -/
def createTranscript (history : List TMessage) : List String :=
  chunkLoop history.reverse "" []

/-- Length mirror of chunkLoop: the same recursion carried out on the
lengths of the current chunk and of the rendered lines only. -/
def chunkLenGo : List Nat → Nat → List Nat → List Nat
  | [], curLen, chunks => if curLen = 0 then chunks else chunks ++ [curLen]
  | n :: ns, curLen, chunks =>
      if 4000 < curLen + n then chunkLenGo ns (n + 1) (chunks ++ [curLen])
      else chunkLenGo ns (curLen + (n + 1)) chunks

/-- A transcript message whose rendered line has length n + 10: empty
timestamp and author, author id 0, content of n characters, no
attachments. -/
def mPad (n : Nat) : TMessage :=
  { timestamp := "", authorName := "", authorId := 0,
    content := String.mk (List.replicate n 'a'), attachmentUrls := [] }

/-- Concrete history for the transcript counterexample; reversal gives
rendered line lengths 2100, 2100, 2100, 2000, 1999 in packing order. -/
def histC9 : List TMessage :=
  [mPad 1989, mPad 1990, mPad 2090, mPad 2090, mPad 2090]

/-- The second-stage submission of the spec scenario: text VPN KEY with a
trailing code, posted with an attachment in a ticket channel. -/
def msgC2 : Msg :=
  { content := "VPN KEY: ABC123", hasAttachment := true,
    authorIsBot := false, inTicketChannel := true }

/-- A state holding one already-closed (archived) ticket of user 7 whose
closure already produced one transcript log. -/
def stC7 : SysState :=
  { stEmpty with threads := [⟨7, 0, true, Stage.Closed⟩], transcripts := 1 }

/-- A state where user 7 is denied the activation-category view but the
cooldown registry is empty. -/
def stC6 : SysState := { stEmpty with categoryDenied := [7] }

/-- A state with one active ticket of user 7 and an empty registry. -/
def stC3 : SysState := { stEmpty with threads := [⟨7, 0, false, Stage.Open⟩] }

/-! Shared helper lemmas. -/

theorem isPrefixOf_self_append {α : Type} [BEq α] [LawfulBEq α]
    (p r : List α) : p.isPrefixOf (p ++ r) = true := by
  induction p with
  | nil => simp [List.isPrefixOf]
  | cons a p ih => simp [List.isPrefixOf, ih]

theorem startsWithTicket_threadNameFor (u : Nat) :
    startsWithTicket (threadNameFor u) = true := by
  unfold startsWithTicket threadNameFor
  rw [String.data_append]
  exact isPrefixOf_self_append _ _

theorem lookupExpiry_setExpiry_self (cds : List (Nat × Nat)) (u v : Nat) :
    lookupExpiry (setExpiry cds u v) u = some v := by
  simp [lookupExpiry, setExpiry, List.find?]

theorem contains_addOnce_self (l : List Nat) (u : Nat) :
    (addOnce l u).contains u = true := by
  unfold addOnce
  split
  · assumption
  · simp

/-- Transcript count always grows by exactly one at a closure. -/
theorem performTicketClosure_transcripts (st : SysState)
    (owner ch now : Nat) (b : Bool) :
    (performTicketClosure st owner ch now b).transcripts = st.transcripts + 1 := by
  unfold performTicketClosure
  cases b <;> simp

/-- Closure without a grant leaves the registry, the category denials and
the role set untouched. -/
theorem performTicketClosure_noGrant (st : SysState) (owner ch now : Nat) :
    (performTicketClosure st owner ch now false).cooldowns = st.cooldowns
    ∧ (performTicketClosure st owner ch now false).categoryDenied = st.categoryDenied
    ∧ (performTicketClosure st owner ch now false).tempRole = st.tempRole := by
  unfold performTicketClosure
  simp

/-- The name guard of the close button always passes on ticket threads,
so the button is exactly a closure with the grant applied. -/
theorem closeTicketButton_eq (st : SysState) (owner ch now : Nat) :
    closeTicketButton st owner ch now
      = (performTicketClosure st owner ch now true, .closurePerformed) := by
  unfold closeTicketButton
  rw [startsWithTicket_threadNameFor]
  simp

/-- Likewise force_close is exactly a closure without the grant. -/
theorem forceCloseCmd_eq (st : SysState) (owner ch now : Nat) :
    forceCloseCmd st owner ch now
      = (performTicketClosure st owner ch now false, .closurePerformed) := by
  unfold forceCloseCmd
  rw [startsWithTicket_threadNameFor]
  simp

/-- The thread list after a closure is the pointwise archival map. -/
theorem performTicketClosure_threads (st : SysState) (owner ch now : Nat)
    (b : Bool) :
    (performTicketClosure st owner ch now b).threads
      = st.threads.map (closureMark owner ch) := by
  cases b <;> rfl

/-- A user just added to a set-like list is a member. -/
theorem mem_addOnce_self (l : List Nat) (u : Nat) : u ∈ addOnce l u := by
  unfold addOnce
  split
  · next h => simpa using h
  · exact List.mem_cons_self _ _

/-! Claim C7. -/

/-- Claim C7, counterexample.  The claim says a CloseTicket or ForceClose
on a ticket already Closed fails with AlreadyClosed and performs no
further closure effects.  On the archived ticket of stC7 both force_close
and the close button run the whole closure again: the result is
closurePerformed, a second transcript is logged, and the state changes,
so the claim is false at this input. -/
theorem c7_counterexample :
    stC7.threads = [⟨7, 0, true, Stage.Closed⟩]
    ∧ (forceCloseCmd stC7 7 0 999).2 = CloseCmdResult.closurePerformed
    ∧ (forceCloseCmd stC7 7 0 999).1.transcripts = 2
    ∧ (closeTicketButton stC7 7 0 999).2 = CloseCmdResult.closurePerformed
    ∧ (closeTicketButton stC7 7 0 999).1.transcripts = 2 := by decide

/-- Claim C7, amended: neither close entry point has an already-closed
guard; after the ticket-name check both always re-run the closure, so a
second close of the same ticket logs a second transcript (and the close
button even re-applies the grant effects) instead of failing with
AlreadyClosed. -/
theorem c7_amended (st : SysState) (owner ch now : Nat) :
    forceCloseCmd st owner ch now
      = (performTicketClosure st owner ch now false, .closurePerformed)
    ∧ closeTicketButton st owner ch now
      = (performTicketClosure st owner ch now true, .closurePerformed)
    ∧ (forceCloseCmd st owner ch now).1.transcripts = st.transcripts + 1
    ∧ (closeTicketButton st owner ch now).1.transcripts = st.transcripts + 1 := by
  rw [forceCloseCmd_eq, closeTicketButton_eq]
  simp [performTicketClosure_transcripts]

/-! Claim C8. -/

/-- Claim C8: the spec says a submission naming a reward key but carrying
no attachment is answered with AttachmentMissing.  The code indeed
intends that reply (the Screenshot Required embed at bot.py line 1419),
but the embed text reads app_name_display, a local assigned only inside
the attachment branch, so the handler raises UnboundLocalError and no
reply is ever sent.  This theorem evaluates the handler at the failing
input. -/
theorem c8_unbound_local :
    onMessage defaultApps
      { content := "spotify done", hasAttachment := false,
        authorIsBot := false, inTicketChannel := true }
      = .error (.unboundLocal "app_name_display") := rfl

/-! Claim C10. -/

/-- Claim C10: a non-bot message in a ticket channel whose content
matches no catalog key is silently ignored by on_message: no reply of any
kind (in particular no KeywordMissing), no error, regardless of
attachments or of the RASH TECH phrase. -/
theorem c10_unmatched_silent (apps : List (String × String)) (m : Msg)
    (hb : m.authorIsBot = false) (ht : m.inTicketChannel = true)
    (hf : apps.find? (fun p => strContains (strLower m.content) p.1) = none) :
    onMessage apps m = .ok .ignored := by
  simp [onMessage, hb, ht, hf]

/-- Claim C10, witness: the message RASH TECH done with an attachment
matches no key of the default catalog and is ignored. -/
theorem c10_witness :
    onMessage defaultApps
      { content := "RASH TECH done", hasAttachment := true,
        authorIsBot := false, inTicketChannel := true }
      = .ok .ignored :=
  c10_unmatched_silent defaultApps _ rfl rfl (by decide)

/-! Claim C6. -/

/-- Claim C6, counterexample.  The claim says CooldownActive is returned
if and only if the registry holds an unexpired entry, with no other state
causing the refusal.  In stC6 the registry is empty, yet because user 7
is denied the activation-category view, create_new_ticket step 2 answers
CooldownActive (with the N/A remaining time, modelled as none). -/
theorem c6_counterexample :
    (createNewTicket stC6 7 0 100 15).2 = OpenResult.cooldownActive none
    ∧ stC6.cooldowns = []
    ∧ cooldownBlocked stC6.cooldowns 7 100 = false := by decide

/-- Claim C6, amended: when the global gates pass, create_new_ticket
answers CooldownActive exactly when the user is denied the
activation-category view OR the registry holds an unexpired entry; the
category permission is checked first and causes the refusal on its own. -/
theorem c6_amended (st : SysState) (u c now hour : Nat)
    (he : st.creationEnabled = true)
    (hh : (isTicketTimeAllowed hour || st.bypassHours) = true) :
    isCooldownActiveR (createNewTicket st u c now hour).2
      = (st.categoryDenied.contains u || cooldownBlocked st.cooldowns u now) := by
  unfold createNewTicket
  rw [he, hh]
  by_cases hm : u ∈ st.categoryDenied
  · simp [hm, isCooldownActiveR]
  · by_cases hb : cooldownBlocked st.cooldowns u now
    · simp [hm, hb, isCooldownActiveR]
    · cases hf : List.find? (activePred (threadNameFor u) c) st.threads <;>
        simp [hm, hb, hf, isCooldownActiveR]

/-- Claim C6, witness: with the gates open, a user denied the category
view gets CooldownActive even though the registry is empty, matching the
amended disjunction. -/
theorem c6_witness :
    isCooldownActiveR (createNewTicket stC6 7 0 100 15).2
      = (stC6.categoryDenied.contains 7 || cooldownBlocked stC6.cooldowns 7 100) :=
  c6_amended stC6 7 0 100 15 rfl (by decide)

/-! Claim C2. -/

/-- Claim C2, counterexample.  The claim says a second-stage proof (text
containing VPN KEY plus an attachment, ticket awaiting the second step)
triggers delivery of the reward link with no operator gate.  The handler
instead forwards the proof to the verification channel asking an admin to
run verify_v2_final (the v2ForwardedToAdmin outcome); it does not call
deliver_and_close, so no link is delivered by this event. -/
theorem c2_counterexample :
    onMessage defaultApps msgC2 = .ok (.v2ForwardedToAdmin "vpn")
    ∧ MsgOutcome.v2ForwardedToAdmin "vpn" ≠ MsgOutcome.linkDelivered "vpn" :=
  ⟨rfl, by decide⟩

/-- Claim C2, amended: the matching second-stage proof is auto-forwarded
to the verification channel for operator review; on_message never
delivers a link on any input, and the delivery happens only when an
operator afterwards runs verify_v2_final on an open ticket whose key has
a catalog link. -/
theorem c2_amended :
    (∀ (apps : List (String × String)) (m : Msg) (pr : String × String),
       m.authorIsBot = false → m.inTicketChannel = true → m.hasAttachment = true →
       apps.find? (fun p => strContains (strLower m.content) p.1) = some pr →
       V2_APPS_LIST.contains pr.1 = true →
       strContains (strUpper m.content) (strUpper pr.1 ++ " KEY") = true →
       onMessage apps m = .ok (.v2ForwardedToAdmin pr.1))
    ∧ (∀ (apps : List (String × String)) (m : Msg) (k : String),
         onMessage apps m ≠ .ok (.linkDelivered k))
    ∧ (∀ (apps : List (String × String)) (threads : List Thread)
         (appName : String) (userId : Nat) (t : Thread) (link : String),
         V2_APPS_LIST.contains (strLower appName) = true →
         threads.find? (fun t => threadName t == threadNameFor userId) = some t →
         t.archived = false →
         lookupLink apps (strLower appName) = some link →
         verifyV2Final apps threads appName userId
           = .completed (.linkSent (strLower appName))) := by
  refine ⟨?_, ?_, ?_⟩
  · intro apps m pr hb ht ha hf hv hk
    have hv' : pr.1 ∈ V2_APPS_LIST := by simpa using hv
    simp [onMessage, hb, ht, ha, hf, hv', hk]
  · intro apps m k
    unfold onMessage
    split
    · simp
    · dsimp only
      cases hf : List.find? (fun p => strContains (strLower m.content) p.1) apps with
      | none => simp [hf]
      | some pr =>
          simp only [hf]
          by_cases ha : m.hasAttachment = true
          · rw [if_pos ha]
            split
            · simp
            · split <;> simp
          · rw [if_neg ha]
            simp
  · intro apps threads appName userId t link hv hf ha hl
    have hv' : strLower appName ∈ V2_APPS_LIST := by simpa using hv
    simp [verifyV2Final, deliverAndClose, hv', hf, ha, hl]

/-- Claim C2, witness: the spec scenario input goes to admin review, and
the operator command on the open ticket of user 9 completes delivery. -/
theorem c2_witness :
    onMessage defaultApps msgC2 = .ok (.v2ForwardedToAdmin "vpn")
    ∧ verifyV2Final defaultApps [⟨9, 0, false, Stage.AwaitingSecondStepProof⟩] "vpn" 9
        = .completed (.linkSent "vpn") :=
  ⟨c2_amended.1 defaultApps msgC2 ("vpn", "https://final-link.com/vpn-premium")
      rfl rfl rfl (by decide) (by decide) (by decide),
   c2_amended.2.2 defaultApps [⟨9, 0, false, Stage.AwaitingSecondStepProof⟩] "vpn" 9
      ⟨9, 0, false, Stage.AwaitingSecondStepProof⟩ "https://final-link.com/vpn-premium"
      (by decide) (by decide) rfl (by decide)⟩

/-! Claim C5. -/

/-- Clicks against a view whose buttons are already disabled never get
through and never change anything. -/
theorem processClicks_from_disabled (cs : List Click) (v : VerifView)
    (h : v.disabled = true) : processClicks v cs = (v, []) := by
  induction cs with
  | nil => rfl
  | cons c cs ih =>
      simp [processClicks, processClick, h, ih]

/-- Claim C5: starting from the enabled review prompt, any sequence of
clicks produces at most one decision effect (no duplicate deliveries); a
click on an already-decided (disabled) prompt is a strict no-op; and
every successful decision leaves the prompt disabled, so the first
successful decision shuts further ones out. -/
theorem c5_single_decision :
    (∀ (isV2 : Bool) (cs : List Click),
       (processClicks ⟨false, isV2⟩ cs).2.length ≤ 1)
    ∧ (∀ (v : VerifView) (c : Click), v.disabled = true →
         processClick v c = (v, none))
    ∧ (∀ (v v' : VerifView) (c : Click) (e : DecideEffect),
         processClick v c = (v', some e) → v'.disabled = true) := by
  refine ⟨?_, ?_, ?_⟩
  · intro isV2 cs
    induction cs with
    | nil => simp [processClicks]
    | cons c cs ih =>
        by_cases hg : c.hasManageGuild
        · cases hk : c.kind <;>
            simp [processClicks, processClick, hg, hk,
              processClicks_from_disabled cs ⟨true, isV2⟩ rfl]
        · simpa [processClicks, processClick, hg] using ih
  · intro v c h
    simp [processClick, h]
  · intro v v' c e h
    unfold processClick at h
    split at h
    · simp at h
    · split at h
      · simp at h
      · split at h <;>
        · simp only [Prod.mk.injEq] at h
          rw [← h.1]

/-- Claim C5, witness: two permitted approve clicks yield one effect; a
click on the disabled prompt is a no-op; a successful approve leaves the
prompt disabled. -/
theorem c5_witness :
    (processClicks ⟨false, false⟩ [⟨.approve, true⟩, ⟨.approve, true⟩]).2.length ≤ 1
    ∧ processClick ⟨true, true⟩ ⟨.deny, true⟩ = (⟨true, true⟩, none)
    ∧ VerifView.disabled ⟨true, false⟩ = true :=
  ⟨c5_single_decision.1 false _,
   c5_single_decision.2.1 ⟨true, true⟩ ⟨.deny, true⟩ rfl,
   c5_single_decision.2.2 ⟨false, false⟩ ⟨true, false⟩ ⟨.approve, true⟩
     .deliveryFlowStarted rfl⟩

/-! Claim C3. -/

/-- Claim C3: closing a ticket through the close button (the
applyGrant-true closure) records the expiry closeTime plus 168 hours in
the registry and denies the category view, so any create_new_ticket call
for the same user strictly before that expiry answers CooldownActive
carrying exactly the remaining duration computed from the registry entry,
and leaves the state unchanged. -/
theorem c3_cooldown_until_elapsed (st : SysState)
    (user ch ch2 closeTime t hour : Nat)
    (he : st.creationEnabled = true)
    (hh : (isTicketTimeAllowed hour || st.bypassHours) = true)
    (ht : t < closeTime + cooldownSeconds) :
    createNewTicket (closeTicketButton st user ch closeTime).1 user ch2 t hour
      = ((closeTicketButton st user ch closeTime).1,
         OpenResult.cooldownActive (some (closeTime + cooldownSeconds - t))) := by
  rw [closeTicketButton_eq]
  have hpc : performTicketClosure st user ch closeTime true =
      { threads := st.threads.map (closureMark user ch),
        cooldowns := setExpiry st.cooldowns user (closeTime + cooldownSeconds),
        categoryDenied := addOnce st.categoryDenied user,
        tempRole := addOnce st.tempRole user,
        transcripts := st.transcripts + 1,
        creationEnabled := st.creationEnabled,
        bypassHours := st.bypassHours } := rfl
  rw [hpc]
  have hmem := mem_addOnce_self st.categoryDenied user
  simp [createNewTicket, he, hh, hmem, cooldownRemaining,
    lookupExpiry_setExpiry_self, ht]

/-- Claim C3, witness: user 7 closes with the grant at time 1000 and is
refused immediately afterwards with the full cooldown remaining. -/
theorem c3_witness :
    createNewTicket (closeTicketButton stC3 7 0 1000).1 7 0 1000 15
      = ((closeTicketButton stC3 7 0 1000).1,
         OpenResult.cooldownActive (some (1000 + cooldownSeconds - 1000))) :=
  c3_cooldown_until_elapsed stC3 7 0 0 1000 1000 15 rfl (by decide) (by decide)

/-! Claim C4. -/

/-- No ticket of the targeted name and channel stays active after a
closure. -/
theorem hasActiveTicket_after_closure (st : SysState) (o ch now : Nat)
    (b : Bool) :
    hasActiveTicket (performTicketClosure st o ch now b) o ch = false := by
  unfold hasActiveTicket
  rw [performTicketClosure_threads, List.any_map, List.any_eq_false]
  intro t _
  simp only [Function.comp_apply]
  unfold closureMark
  split
  · simp [activePred]
  · next hcond =>
      simp only [Bool.not_eq_true] at hcond
      simp [activePred, hcond]

/-- Claim C4, counterexample.  The claim says the inactivity timer closes
a ticket if and only if it is still Open, and never one awaiting proof
review.  Run an open followed by a first-stage proof submission: the
ticket is in AwaitingProofReview and unarchived; when the timer fires it
is archived anyway, because archive_thread_after_delay only consults the
archived flag.  The registry is unchanged, as the claim also says. -/
theorem c4_counterexample :
    (run stEmpty [.openT 1 0 0 15, .submitV1 1 0]).threads
        = [⟨1, 0, false, Stage.AwaitingProofReview⟩]
    ∧ (step (run stEmpty [.openT 1 0 0 15, .submitV1 1 0]) (.timerFireT 1 0 600)).threads
        = [⟨1, 0, true, Stage.Closed⟩]
    ∧ (step (run stEmpty [.openT 1 0 0 15, .submitV1 1 0]) (.timerFireT 1 0 600)).cooldowns
        = (run stEmpty [.openT 1 0 0 15, .submitV1 1 0]).cooldowns := by decide

/-- Claim C4, amended: when the ten-minute timer fires it force-closes
the ticket (transcript logged, thread archived, no grant) if and only if
the ticket is not archived yet, whatever its protocol stage; the
registry, the category denials and the role set are unchanged either
way. -/
theorem c4_amended (st : SysState) (owner ch now : Nat) :
    (archiveThreadAfterDelay st owner ch now).cooldowns = st.cooldowns
    ∧ (archiveThreadAfterDelay st owner ch now).categoryDenied = st.categoryDenied
    ∧ (archiveThreadAfterDelay st owner ch now).tempRole = st.tempRole
    ∧ (hasActiveTicket st owner ch = false →
         archiveThreadAfterDelay st owner ch now = st)
    ∧ (hasActiveTicket st owner ch = true →
         (archiveThreadAfterDelay st owner ch now).transcripts = st.transcripts + 1
         ∧ hasActiveTicket (archiveThreadAfterDelay st owner ch now) owner ch = false) := by
  unfold archiveThreadAfterDelay
  by_cases h : hasActiveTicket st owner ch = true
  · rw [if_pos h]
    refine ⟨(performTicketClosure_noGrant st owner ch now).1,
      (performTicketClosure_noGrant st owner ch now).2.1,
      (performTicketClosure_noGrant st owner ch now).2.2, ?_, ?_⟩
    · intro hfalse; rw [h] at hfalse; cases hfalse
    · intro _
      exact ⟨performTicketClosure_transcripts st owner ch now false,
        hasActiveTicket_after_closure st owner ch now false⟩
  · rw [if_neg h]
    exact ⟨rfl, rfl, rfl, fun _ => rfl, fun htrue => absurd htrue h⟩

/-- Claim C4, witness: on a state holding the active ticket of user 7 the
timer performs the closure (one more transcript, no active ticket left),
by the amended theorem. -/
theorem c4_witness :
    (archiveThreadAfterDelay stC3 7 0 600).transcripts = stC3.transcripts + 1
    ∧ hasActiveTicket (archiveThreadAfterDelay stC3 7 0 600) 7 0 = false :=
  (c4_amended stC3 7 0 600).2.2.2.2 (by decide)

/-! Claim C1. -/

/-- Mapping a function that can only falsify a predicate never increases
the filtered length. -/
theorem length_filter_map_le {α : Type} (l : List α) (f : α → α) (p : α → Bool)
    (h : ∀ t, p (f t) = true → p t = true) :
    ((l.map f).filter p).length ≤ (l.filter p).length := by
  induction l with
  | nil => simp
  | cons a l ih =>
      simp only [List.map_cons, List.filter_cons]
      cases hfa : p (f a)
      · cases hpa : p a
        · simpa using ih
        · simp only [Bool.false_eq_true, if_false, if_true, List.length_cons]
          exact Nat.le_succ_of_le ih
      · rw [h a hfa]
        simp only [if_true, List.length_cons]
        exact Nat.succ_le_succ ih

/-- Archival can only falsify the active-ticket predicate. -/
theorem activePred_closureMark (nm : String) (c o pc : Nat) (t : Thread)
    (h : activePred nm c (closureMark o pc t) = true) :
    activePred nm c t = true := by
  unfold closureMark at h
  split at h
  · simp [activePred] at h
  · exact h

/-- The ghost stage updates leave the active-ticket predicate unchanged. -/
theorem activePred_stage_update (nm : String) (c o ch : Nat)
    (fromS toS : Stage) (t : Thread) :
    activePred nm c
      (if t.parent == ch &&
          (threadName t == threadNameFor o && (!t.archived && t.stage == fromS))
        then { t with stage := toS } else t)
      = activePred nm c t := by
  split <;> rfl

/-- Closure-shaped states keep the per-channel bound. -/
theorem inv_after_closure (st : SysState) (o ch now : Nat) (b : Bool)
    (h : invPerChannel st) :
    invPerChannel (performTicketClosure st o ch now b) := by
  intro nm c
  unfold activeCount
  rw [performTicketClosure_threads]
  exact Nat.le_trans
    (length_filter_map_le st.threads (closureMark o ch) (activePred nm c)
      (activePred_closureMark nm c o ch))
    (h nm c)

/-- Every event preserves the per-channel bound on active tickets. -/
theorem step_preserves_inv (st : SysState) (op : Op)
    (h : invPerChannel st) : invPerChannel (step st op) := by
  cases op with
  | openT u c now hour =>
      show invPerChannel (createNewTicket st u c now hour).1
      unfold createNewTicket
      split
      · exact h
      · split
        · exact h
        · split
          · exact h
          · split
            · exact h
            · next hfind =>
                intro nm ch
                unfold activeCount
                dsimp only
                rw [List.filter_append, List.length_append]
                cases hpa : activePred nm ch ⟨u, c, false, Stage.Open⟩
                · simp only [List.filter_cons, hpa, Bool.false_eq_true, if_false,
                    List.filter_nil, List.length_nil, Nat.add_zero]
                  exact h nm ch
                · have hparsed : (c == ch) = true ∧ (threadNameFor u == nm) = true := by
                    simpa [activePred, threadName] using hpa
                  have hceq : c = ch := by simpa using hparsed.1
                  have hnmeq : threadNameFor u = nm := by simpa using hparsed.2
                  subst hceq
                  subst hnmeq
                  have hnil : st.threads.filter (activePred (threadNameFor u) c) = [] := by
                    rw [List.filter_eq_nil_iff]
                    intro t htmem
                    simpa using List.find?_eq_none.mp hfind t htmem
                  rw [hnil]
                  simp [List.filter_cons, hpa]
  | closeT u c now =>
      show invPerChannel (closeTicketButton st u c now).1
      rw [closeTicketButton_eq]
      exact inv_after_closure st u c now true h
  | forceCloseT u c now =>
      show invPerChannel (forceCloseCmd st u c now).1
      rw [forceCloseCmd_eq]
      exact inv_after_closure st u c now false h
  | timerFireT u c now =>
      show invPerChannel (archiveThreadAfterDelay st u c now)
      unfold archiveThreadAfterDelay
      split
      · exact inv_after_closure st u c now false h
      · exact h
  | submitV1 u c =>
      show invPerChannel (setStage st u c Stage.Open Stage.AwaitingProofReview)
      intro nm ch
      unfold setStage activeCount
      dsimp only
      refine Nat.le_trans (length_filter_map_le st.threads _ (activePred nm ch) ?_) (h nm ch)
      intro t hpt
      rwa [activePred_stage_update] at hpt
  | approveV1 u c isV2 =>
      cases isV2 with
      | false => exact h
      | true =>
          show invPerChannel (setStage st u c Stage.AwaitingProofReview Stage.AwaitingSecondStepProof)
          intro nm ch
          unfold setStage activeCount
          dsimp only
          refine Nat.le_trans (length_filter_map_le st.threads _ (activePred nm ch) ?_) (h nm ch)
          intro t hpt
          rwa [activePred_stage_update] at hpt

/-- Any event sequence preserves the per-channel bound. -/
theorem run_preserves_inv (ops : List Op) (st : SysState)
    (h : invPerChannel st) : invPerChannel (run st ops) := by
  induction ops generalizing st with
  | nil => exact h
  | cons op ops ih => exact ih (step st op) (step_preserves_inv st op h)

/-- Claim C1, counterexample.  The claim asserts at most one non-Closed
ticket per user globally, with DuplicateTicket refused whenever one
exists.  The duplicate scan of create_new_ticket only inspects the
threads of the origin channel, so opening from two different channels
gives user 1 two active tickets at once, and the second open succeeds
instead of failing with DuplicateTicket. -/
theorem c1_counterexample :
    globalActiveCount (run stEmpty [.openT 1 0 50 15, .openT 1 1 50 15])
        (threadNameFor 1) = 2
    ∧ (createNewTicket (run stEmpty [.openT 1 0 50 15]) 1 1 50 15).2
        = OpenResult.created := by decide

/-- Claim C1, amended: uniqueness holds per origin channel: after any
sequence of open, close, force-close, timer and review events a user has
at most one active ticket in each channel, and an open finding an active
same-name ticket in its origin channel (with the earlier gates passing)
fails with DuplicateTicket naming the existing thread and leaves the
state unchanged.  Across different origin channels several active
tickets of one user can coexist. -/
theorem c1_amended :
    (∀ (st : SysState) (ops : List Op),
       invPerChannel st → invPerChannel (run st ops))
    ∧ (∀ (st : SysState) (u c now hour : Nat) (t : Thread),
         st.creationEnabled = true →
         (isTicketTimeAllowed hour || st.bypassHours) = true →
         st.categoryDenied.contains u = false →
         cooldownBlocked st.cooldowns u now = false →
         st.threads.find? (activePred (threadNameFor u) c) = some t →
         createNewTicket st u c now hour = (st, .duplicateTicket (threadName t))) := by
  constructor
  · intro st ops h
    exact run_preserves_inv ops st h
  · intro st u c now hour t he hh hc hb hf
    have hc' : u ∉ st.categoryDenied := by simpa using hc
    simp [createNewTicket, he, hh, hc', hb, hf]

/-- Claim C1, witness: starting from the empty state the invariant holds
after a run, and a second open in the same channel is refused with
DuplicateTicket naming the existing thread. -/
theorem c1_witness :
    invPerChannel (run stEmpty [Op.openT 1 0 50 15])
    ∧ createNewTicket (run stEmpty [Op.openT 1 0 50 15]) 1 0 60 15
        = (run stEmpty [Op.openT 1 0 50 15],
           OpenResult.duplicateTicket (threadName ⟨1, 0, false, Stage.Open⟩)) :=
  ⟨c1_amended.1 stEmpty [Op.openT 1 0 50 15]
      (by intro nm c; simp [invPerChannel, activeCount, stEmpty]),
   c1_amended.2 (run stEmpty [Op.openT 1 0 50 15]) 1 0 60 15
      ⟨1, 0, false, Stage.Open⟩ (by decide) (by decide) (by decide) (by decide)
      (by decide)⟩

/-! Claim C9. -/

theorem strJoin_nil : String.join [] = "" := rfl

theorem strLength_zero {s : String} (h : s.length = 0) : s = "" := by
  cases s with
  | mk data =>
      cases data with
      | nil => rfl
      | cons a l =>
          change l.length + 1 = 0 at h
          exact absurd h (Nat.succ_ne_zero _)

theorem strFoldl_shift (l : List String) (a : String) :
    l.foldl (fun r s => r ++ s) a = a ++ l.foldl (fun r s => r ++ s) "" := by
  induction l generalizing a with
  | nil => simp [List.foldl, String.append_empty]
  | cons x l ih =>
      simp only [List.foldl]
      rw [ih (a ++ x), ih ("" ++ x), String.empty_append, String.append_assoc]

theorem strJoin_cons (s : String) (l : List String) :
    String.join (s :: l) = s ++ String.join l := by
  show List.foldl (fun r s => r ++ s) "" (s :: l) = _
  simp only [List.foldl]
  rw [strFoldl_shift l ("" ++ s), String.empty_append]
  rfl

theorem strJoin_append_single (l : List String) (s : String) :
    String.join (l ++ [s]) = String.join l ++ s := by
  induction l with
  | nil =>
      simp only [List.nil_append, strJoin_cons, strJoin_nil]
      rw [String.append_empty, String.empty_append]
  | cons x l ih =>
      simp only [List.cons_append, strJoin_cons, ih, String.append_assoc]

/-- The concatenation of the produced chunks is the accumulated chunks,
the open chunk, and every remaining rendered line (with its separator) in
order. -/
theorem join_chunkLoop (ms : List TMessage) :
    ∀ (cur : String) (chunks : List String),
      String.join (chunkLoop ms cur chunks)
        = String.join chunks ++ cur
            ++ String.join (ms.map fun m => renderLine m ++ "\n") := by
  induction ms with
  | nil =>
      intro cur chunks
      unfold chunkLoop
      split
      · next hcur =>
          rw [hcur]
          simp [strJoin_nil, String.append_empty]
      · rw [strJoin_append_single]
        simp [strJoin_nil, String.append_empty]
  | cons m ms ih =>
      intro cur chunks
      unfold chunkLoop
      dsimp only
      split
      · rw [ih, strJoin_append_single]
        simp only [List.map_cons, strJoin_cons]
        simp [String.append_assoc]
      · rw [ih]
        simp only [List.map_cons, strJoin_cons]
        simp [String.append_assoc]

/-- Bound on chunk sizes: when every rendered line is below the 4000
bound, every chunk the loop can produce stays below 4002 (the check
ignores the blank separator appended after it). -/
theorem chunkLoop_bound (ms : List TMessage) :
    ∀ (cur : String) (chunks : List String),
      (∀ m ∈ ms, (renderLine m).length < 4000) →
      cur.length ≤ 4001 →
      (∀ ch ∈ chunks, ch.length ≤ 4001) →
      ∀ ch ∈ chunkLoop ms cur chunks, ch.length ≤ 4001 := by
  induction ms with
  | nil =>
      intro cur chunks _ hcur hchunks ch hch
      unfold chunkLoop at hch
      split at hch
      · exact hchunks ch hch
      · rcases List.mem_append.mp hch with hm | hm
        · exact hchunks ch hm
        · rw [List.mem_singleton.mp hm]
          exact hcur
  | cons m ms ih =>
      intro cur chunks hlines hcur hchunks ch hch
      have hm := hlines m (List.mem_cons_self _ _)
      have hnl : ("\n" : String).length = 1 := rfl
      unfold chunkLoop at hch
      dsimp only at hch
      split at hch
      · refine ih _ _ (fun x hx => hlines x (List.mem_cons_of_mem _ hx)) ?_ ?_ ch hch
        · rw [String.length_append, hnl]
          omega
        · intro x hx
          rcases List.mem_append.mp hx with hq | hq
          · exact hchunks x hq
          · rw [List.mem_singleton.mp hq]
            exact hcur
      · next hle =>
          refine ih _ _ (fun x hx => hlines x (List.mem_cons_of_mem _ hx)) ?_ hchunks ch hch
          rw [String.length_append, String.length_append, hnl]
          omega

/-- The chunk lengths the loop produces are computed by the length mirror
chunkLenGo. -/
theorem chunkLoop_lengths (ms : List TMessage) :
    ∀ (cur : String) (chunks : List String),
      (chunkLoop ms cur chunks).map String.length
        = chunkLenGo (ms.map fun m => (renderLine m).length) cur.length
            (chunks.map String.length) := by
  induction ms with
  | nil =>
      intro cur chunks
      unfold chunkLoop chunkLenGo
      simp only [List.map_nil]
      by_cases hc : cur = ""
      · rw [if_pos hc, if_pos (by rw [hc]; rfl)]
      · rw [if_neg hc, if_neg (fun h0 => hc (strLength_zero h0))]
        simp [List.map_append]
  | cons m ms ih =>
      intro cur chunks
      unfold chunkLoop chunkLenGo
      simp only [List.map_cons]
      have hnl : ("\n" : String).length = 1 := rfl
      split
      · rw [ih]
        rw [String.length_append, hnl, List.map_append]
        rfl
      · rw [ih]
        rw [String.length_append, String.length_append, hnl]

/-- Rendered line length of the padded counterexample messages. -/
theorem renderLine_mPad (n : Nat) : (renderLine (mPad n)).length = n + 10 := by
  have hc : (String.mk (List.replicate n 'a')).length = n := by
    show (List.replicate n 'a').length = n
    simp
  have h1 : ("[" : String).length = 1 := rfl
  have h2 : ("] " : String).length = 2 := rfl
  have h3 : (" (" : String).length = 2 := rfl
  have h4 : (toString (0 : Nat)).length = 1 := rfl
  have h5 : ("): " : String).length = 3 := rfl
  have h6 : ("\n" : String).length = 1 := rfl
  have h7 : ("" : String).length = 0 := rfl
  unfold renderLine mPad
  simp only [List.map_nil, strJoin_nil, String.length_append,
    h1, h2, h3, h4, h5, h6, h7, hc]
  omega

/-- Claim C9, counterexample.  The claim says that with every rendered
line under 4000 characters the transcript has exactly
ceil(totalLength / 4000) chunks, each at most 4000 characters.  For
histC9 (rendered line lengths 2100, 2100, 2100, 2000, 1999 in packing
order) the code produces four chunks of lengths 2101, 2101, 2101 and
4001: the last chunk exceeds 4000 (the size check ignores the blank
separator line appended after it), and the count 4 differs from
ceil(10299 / 4000) = 3. -/
theorem c9_counterexample :
    (∀ m ∈ histC9, (renderLine m).length < 4000)
    ∧ (createTranscript histC9).map String.length = [2101, 2101, 2101, 4001]
    ∧ (createTranscript histC9).length = 4
    ∧ ((histC9.reverse.map fun m => (renderLine m).length).sum + 3999) / 4000 = 3
    ∧ ¬ (∀ ch ∈ createTranscript histC9, ch.length ≤ 4000) := by
  have hlens : histC9.reverse.map (fun m => (renderLine m).length)
      = [2100, 2100, 2100, 2000, 1999] := by
    simp [histC9, renderLine_mPad]
  have hmap : (createTranscript histC9).map String.length
      = [2101, 2101, 2101, 4001] := by
    unfold createTranscript
    rw [chunkLoop_lengths, hlens]
    decide
  refine ⟨?_, hmap, ?_, ?_, ?_⟩
  · intro m hm
    simp only [histC9, List.mem_cons, List.not_mem_nil, or_false] at hm
    rcases hm with rfl | rfl | rfl | rfl | rfl <;> rw [renderLine_mPad] <;> omega
  · have hcount := congrArg List.length hmap
    simpa using hcount
  · rw [hlens]
    decide
  · intro hall
    have h4001 : (4001 : Nat) ∈ (createTranscript histC9).map String.length := by
      rw [hmap]
      simp
    obtain ⟨ch, hch, hlen⟩ := List.mem_map.mp h4001
    have := hall ch hch
    omega

/-- Claim C9, amended: with every rendered line under the 4000 bound,
every produced chunk is at most 4001 characters (the packing check
compares before appending the blank separator, so the stated 4000 bound
can be exceeded by one), the chunk count follows the greedy packing
rather than the ceiling formula, and the concatenation of all chunks is
exactly the concatenation of every rendered line, oldest first, each
followed by its separator: every message appears exactly once, in
order. -/
theorem c9_amended (history : List TMessage)
    (hlines : ∀ m ∈ history, (renderLine m).length < 4000) :
    (∀ ch ∈ createTranscript history, ch.length ≤ 4001)
    ∧ String.join (createTranscript history)
        = String.join (history.reverse.map fun m => renderLine m ++ "\n") := by
  constructor
  · refine chunkLoop_bound history.reverse "" []
      (fun m hm => hlines m (List.mem_reverse.mp hm)) (by decide) ?_
    intro ch hch
    simp at hch
  · unfold createTranscript
    rw [join_chunkLoop]
    rw [strJoin_nil, String.empty_append, String.empty_append]

/-- Claim C9, witness: a one-message history satisfies the line bound;
its chunks are bounded and concatenate back to the rendered line. -/
theorem c9_witness :
    (∀ ch ∈ createTranscript [mPad 5], ch.length ≤ 4001)
    ∧ String.join (createTranscript [mPad 5])
        = String.join ([mPad 5].reverse.map fun m => renderLine m ++ "\n") :=
  c9_amended [mPad 5] (by
    intro m hm
    rw [List.mem_singleton.mp hm, renderLine_mPad]
    omega)

end Kiro
